import Mathlib

/-!
Shallow embedding of the asynchronous text-processing service in
src/AI-API/app.py: the synchronous route handlers, the submission gateway
create_async_task, the celery-backed worker tasks, and the status query
handler get_task_result.  The external text service trs (imported from the
translations module, an external collaborator) is a parameter of the
embedding; the celery broker and result backend are modelled by explicit
state passing.
-/

/-- Result of evaluating a piece of Python code: either a value, or an
uncaught Python exception carrying its message. -/
inductive Py (α : Type) where
  | ok : α → Py α
  | raise : String → Py α
deriving DecidableEq

/-- CPython positional-argument check: a function declared with nparams
parameters, called with nargs positional arguments, raises a TypeError
before any of its body runs when the counts differ, and otherwise runs the
body. -/
def pyCallCheck (fname : String) (nparams nargs : Nat) (run : Py α) : Py α :=
  if nparams = nargs then run
  else Py.raise ("TypeError: " ++ fname ++ "() takes " ++ toString nparams ++
    " positional arguments but " ++ toString nargs ++ " was given")

/-- The external text service trs used by app.py (imported from the
translations module, which is an external collaborator per spec section 6):
three transform capabilities that either return transformed text or fail
with an exception message.  It is untrusted and unreliable, so the
embedding is parameterised over it. -/
structure Trs where
  translate_zh_to_en : String → Except String String
  translate_en_to_zh : String → Except String String
  summarize : String → Except String String

/-- An HTTP request as the handlers see it: request.get_json() has produced
a JSON object, whose optional text field is read by data.get. -/
structure Req where
  text : Option String
deriving DecidableEq

/-- Python data.get with default: returns the text field or the empty
string when the field is absent. -/
def Req.getText (r : Req) : String := r.text.getD ""

/-- A Flask JSON response together with its HTTP status code: the handlers
return jsonify of code, message and data, optionally paired with a status
code (200 when the pair is omitted).  The data member is a JSON object
modelled as a key-value list, or null. -/
structure ApiResp where
  httpStatus : Nat
  code : Nat
  message : String
  data : Option (List (String × String))
deriving DecidableEq

/-- Handler of POST /api/translate/zh_to_en, from app.py: declared
def trans_zh_to_en() with zero parameters; empty text is rejected with 400;
the body then calls trs.translate_en_to_zh on the text (app.py line 83 —
the English-to-Chinese transform, not translate_zh_to_en); an exception
from the service is caught and answered with 500. -/
def trans_zh_to_en (trs : Trs) (req : Req) : ApiResp :=
  let text := req.getText
  if text = "" then ⟨400, 400, "请输入要进行翻译的中文", none⟩
  else
    match trs.translate_en_to_zh text with
    | .ok result => ⟨200, 200, "翻译成功", some [("original", text), ("translated", result)]⟩
    | .error e => ⟨500, 500, "服务器出错," ++ e, none⟩

/-- Handler of POST /api/translate/en_to_zh, from app.py: declared
def trans_en_to_zh() with zero parameters; calls trs.translate_en_to_zh
(app.py line 117). -/
def trans_en_to_zh (trs : Trs) (req : Req) : ApiResp :=
  let text := req.getText
  if text = "" then ⟨400, 400, "请输入要进行翻译的英文", none⟩
  else
    match trs.translate_en_to_zh text with
    | .ok result => ⟨200, 200, "翻译成功", some [("original", text), ("translated", result)]⟩
    | .error e => ⟨500, 500, "服务器出错," ++ e, none⟩

/-- Handler of POST /api/summarize, from app.py: declared def summarize()
with zero parameters; calls trs.summarize. -/
def summarize (trs : Trs) (req : Req) : ApiResp :=
  let text := req.getText
  if text = "" then ⟨400, 400, "请输入要总结的文本", none⟩
  else
    match trs.summarize text with
    | .ok result => ⟨200, 200, "总结成功", some [("original", text), ("summarized", result)]⟩
    | .error e => ⟨500, 500, "服务器出错," ++ e, none⟩

/-- Number of parameters of each synchronous route handler as defined in
app.py: all three are declared with an empty parameter list. -/
def routeHandlerParamCount : Nat := 0

/-- A state stored in (or defaulted by) the celery result backend for one
task id.  SUCCESS carries the return value of the task; FAILURE carries the
stringified exception info (none when no info was stored).  Celery states
other than these four also render through the failed branch of
get_task_result, but this program only ever produces these four. -/
inductive CeleryState where
  | PENDING
  | PROCESSING
  | SUCCESS (result : ApiResp)
  | FAILURE (info : Option String)
deriving DecidableEq

/-- The celery result backend: a map from task id to stored state, most
recent entry first. -/
structure Backend where
  entries : List (String × CeleryState)
deriving DecidableEq

/-- Celery read semantics of AsyncResult(task_id).state: a task id with no
stored record is reported as PENDING — celery documents that any unknown
task id is implied to be in the pending state. -/
def backendGet (b : Backend) (id : String) : CeleryState :=
  (b.entries.lookup id).getD .PENDING

/-- Backend write: both update_state and the recording of the task outcome
store the new state for the id. -/
def backendPut (b : Backend) (id : String) (s : CeleryState) : Backend :=
  ⟨(id, s) :: b.entries⟩

/-- Body of the three celery tasks in app.py after self.update_state and the
simulated time.sleep: each returns the value of calling the corresponding
synchronous route handler with one positional argument — see for example
return trans_zh_to_en(text) in trans_zh_to_en_async.  Those handlers are
declared with zero parameters, so the call raises a TypeError before any
handler code runs; the run argument of pyCallCheck is therefore unreachable
and is supplied as the handler on an empty request.  A message whose kind
names no registered task is rejected by the worker. -/
def taskBody (trs : Trs) (kind text : String) : Py ApiResp :=
  if kind = "zh_to_en" then
    pyCallCheck "trans_zh_to_en" routeHandlerParamCount 1 (.ok (trans_zh_to_en trs ⟨none⟩))
  else if kind = "en_to_zh" then
    pyCallCheck "trans_en_to_zh" routeHandlerParamCount 1 (.ok (trans_en_to_zh trs ⟨none⟩))
  else if kind = "summarize" then
    pyCallCheck "summarize" routeHandlerParamCount 1 (.ok (summarize trs ⟨none⟩))
  else .raise ("NotRegistered: " ++ kind)

/-- What celery stores once the task body finishes: SUCCESS of the returned
value, or FAILURE of the raised exception. -/
def taskOutcome (trs : Trs) (kind text : String) : CeleryState :=
  match taskBody trs kind text with
  | .ok v => .SUCCESS v
  | .raise e => .FAILURE (some e)

/-- A queued task-request message: the id celery assigned at submission,
the celery task it targets (the kind), and the argument text. -/
structure TaskMsg where
  id : String
  kind : String
  text : String
deriving DecidableEq

/-- Whole-system state of the embedding: the task-id generator, the broker
queue, and the celery result backend. -/
structure SysState where
  nextId : Nat
  queue : List TaskMsg
  backend : Backend
deriving DecidableEq

/-- Celery task-id generation, modelled as a counter-derived identifier
(the real uuid generator is opaque infrastructure). -/
def freshTaskId (n : Nat) : String := "task-" ++ toString n

/-- Semantics of task.delay(text): celery assigns a fresh id and enqueues
the message on the broker; nothing is written to the result backend at
submission time. -/
def delay (st : SysState) (kind text : String) : String × SysState :=
  let id := freshTaskId st.nextId
  (id, ⟨st.nextId + 1, st.queue ++ [⟨id, kind, text⟩], st.backend⟩)

/-- Function create_async_task(task_type, request) from app.py: validates
the text (empty or absent text is answered with 400 before anything else
happens), dispatches on task_type to the matching .delay call, and answers
with the task id, the literal status pending and the polling url; an
unrecognised task_type is answered with 400 and nothing is enqueued.  The
broker is assumed reachable: its failure is the except-branch 500
(DispatchError in the spec), external infrastructure outside this model. -/
def create_async_task (task_type : String) (req : Req) (st : SysState) :
    ApiResp × SysState :=
  let text := req.getText
  if text = "" then (⟨400, 400, "请输入文本", none⟩, st)
  else
    let submitted := fun (p : String × SysState) =>
      ((⟨200, 200, "任务已提交",
          some [("task_id", p.1), ("status", "pending"),
                ("result_url", "/api/task/" ++ p.1)]⟩ : ApiResp), p.2)
    if task_type = "zh_to_en" then submitted (delay st "zh_to_en" text)
    else if task_type = "en_to_zh" then submitted (delay st "en_to_zh" text)
    else if task_type = "summarize" then submitted (delay st "summarize" text)
    else (⟨400, 400, "未知任务类型", none⟩, st)

/-- The data object rendered by GET /api/task/<task_id> for one backend
state.  The result field is the stored task return value for SUCCESS and
null otherwise; the error field is only emitted in the failed branch.
Option none stands for a JSON null or an absent key. -/
structure TaskData where
  status : String
  result : Option ApiResp
  error : Option String
deriving DecidableEq

/-- The if/elif chain of get_task_result in app.py: PENDING renders pending,
PROCESSING renders processing, SUCCESS renders completed with the stored
result, and every other state renders failed with the stringified info when
it is truthy and the fallback error text otherwise. -/
def renderTaskState (s : CeleryState) : TaskData :=
  match s with
  | .PENDING => ⟨"pending", none, none⟩
  | .PROCESSING => ⟨"processing", none, none⟩
  | .SUCCESS r => ⟨"completed", some r, none⟩
  | .FAILURE info =>
      ⟨"failed", none,
        some (match info with
          | some s => if s = "" then "未知错误" else s
          | none => "未知错误")⟩

/-- Response of GET /api/task/<task_id>: HTTP 200 and code 200 with the
rendered task data.  Backend access is assumed reachable: its failure is
the except-branch 500, external infrastructure outside this model. -/
structure TaskResp where
  httpStatus : Nat
  code : Nat
  message : String
  data : Option TaskData
deriving DecidableEq

/-- Handler of GET /api/task/<task_id> from app.py: reads the backend via
celery.AsyncResult and renders the state; the system state is returned
unchanged because the handler performs no write. -/
def get_task_result (st : SysState) (task_id : String) : TaskResp × SysState :=
  ((⟨200, 200, "成功", some (renderTaskState (backendGet st.backend task_id))⟩ : TaskResp), st)

/-- Backend states successively produced while one worker executes a
dequeued message: first the write of update_state PROCESSING, then the
write of the recorded outcome. -/
def workerBackendTrace (trs : Trs) (b : Backend) (msg : TaskMsg) : List Backend :=
  let b1 := backendPut b msg.id .PROCESSING
  let b2 := backendPut b1 msg.id (taskOutcome trs msg.kind msg.text)
  [b1, b2]

/-- States a poller can observe for a task id, in order: the backend state
before the worker starts, then the state after each worker write. -/
def taskStatusTrace (trs : Trs) (b : Backend) (msg : TaskMsg) : List CeleryState :=
  backendGet b msg.id :: (workerBackendTrace trs b msg).map (fun x => backendGet x msg.id)

/-- Terminal lifecycle states. -/
def isTerminal : CeleryState → Bool
  | .SUCCESS _ => true
  | .FAILURE _ => true
  | _ => false

/-- A single lifecycle step allowed by the state machine of spec section
4.3: Pending to Processing, or Processing to a terminal state. -/
def allowedStep (a b : CeleryState) : Prop :=
  (a = .PENDING ∧ b = .PROCESSING) ∨ (a = .PROCESSING ∧ isTerminal b = true)

/-- Lifecycle property of one observation trace: consecutive observations
follow the Pending to Processing to terminal machine (hence nothing leaves
a terminal state and nothing skips Processing), any observation at or after
a terminal one equals it, and the trace ends in a terminal state. -/
def lifecycleOK (tr : List CeleryState) : Prop :=
  List.Chain' allowedStep tr ∧
  (∀ i j : Nat, i ≤ j → j < tr.length → isTerminal (tr.getD i .PENDING) = true →
    tr.getD j .PENDING = tr.getD i .PENDING) ∧
  (∃ s, tr.getLast? = some s ∧ isTerminal s = true)

/-- A concrete text service for witnesses and counterexamples: all three
transforms succeed and are pairwise distinguishable. -/
def demoTrs : Trs :=
  ⟨fun t => .ok ("EN:" ++ t), fun t => .ok ("ZH:" ++ t), fun t => .ok ("SUM:" ++ t)⟩

/-- The system state before any submission. -/
def emptySys : SysState := ⟨0, [], ⟨[]⟩⟩

/-- Every async task body raises: each registered branch calls a
zero-parameter route handler with one positional argument, and an
unregistered kind is rejected by the worker. -/
theorem taskBody_raises (trs : Trs) (kind text : String) :
    ∃ e, taskBody trs kind text = Py.raise e := by
  unfold taskBody pyCallCheck routeHandlerParamCount
  repeat' split
  all_goals first
    | exact ⟨_, rfl⟩
    | omega

/-- C1: the claim says an async zh_to_en task with non-empty input whose
service call succeeds reaches Success with the returned text stored as the
result.  The code instead calls the zero-parameter route handler
trans_zh_to_en with one positional argument, so the task raises a TypeError
and terminates FAILURE: even under an oracle that succeeds on the input
你好, the celery outcome is FAILURE and polling renders failed, never
completed. -/
theorem C1_async_task_never_succeeds :
    demoTrs.translate_zh_to_en "你好" = Except.ok "EN:你好" ∧
    taskBody demoTrs "zh_to_en" "你好" =
      Py.raise "TypeError: trans_zh_to_en() takes 0 positional arguments but 1 was given" ∧
    taskOutcome demoTrs "zh_to_en" "你好" =
      .FAILURE (some "TypeError: trans_zh_to_en() takes 0 positional arguments but 1 was given") ∧
    (renderTaskState (taskOutcome demoTrs "zh_to_en" "你好")).status = "failed" :=
  ⟨rfl, rfl, rfl, rfl⟩

/-- C2: the claim says each operation invokes the external text service
with its own kind — zh_to_en the Chinese-to-English transform.  The code
refutes this: the synchronous zh_to_en handler applies the
English-to-Chinese transform (its translated output is the en_to_zh
transform of the input, distinct from the zh_to_en transform), and the
async worker bodies raise a TypeError for every oracle, so they never
invoke the service at all. -/
theorem C2_wrong_service_invocation :
    (trans_zh_to_en demoTrs ⟨some "你好"⟩).data =
      some [("original", "你好"), ("translated", "ZH:你好")] ∧
    demoTrs.translate_zh_to_en "你好" = Except.ok "EN:你好" ∧
    demoTrs.translate_en_to_zh "你好" = Except.ok "ZH:你好" ∧
    ("ZH:你好" : String) ≠ "EN:你好" ∧
    (∀ trs : Trs, taskBody trs "zh_to_en" "你好" =
      Py.raise "TypeError: trans_zh_to_en() takes 0 positional arguments but 1 was given") :=
  ⟨rfl, rfl, rfl, by decide, fun _ => rfl⟩

/-- C3 counterexample: the claim says querying a task id that was never
issued returns a not-found condition distinct from pending; but on the
system state with no submission at all, the response for such an id is
HTTP 200 with data exactly the pending rendering — identical to a
not-yet-started task, with no not-found condition. -/
theorem C3_unknown_id_counterexample :
    (get_task_result emptySys "no-such-task").1 =
      ⟨200, 200, "成功", some ⟨"pending", none, none⟩⟩ ∧
    renderTaskState .PENDING = ⟨"pending", none, none⟩ :=
  ⟨rfl, rfl⟩

/-- C3 amended: for every task id with no record in the result backend —
in particular every id never issued — the status query answers HTTP 200
whose data is exactly the rendering of a Pending task: the code conflates
unknown ids with pending tasks and offers no not-found condition. -/
theorem C3_amended_unknown_id_pending (st : SysState) (id : String)
    (h : st.backend.entries.lookup id = none) :
    (get_task_result st id).1.httpStatus = 200 ∧
    (get_task_result st id).1.data = some (renderTaskState .PENDING) := by
  refine ⟨rfl, ?_⟩
  simp [get_task_result, backendGet, h]

theorem C3_amended_witness :
    emptySys.backend.entries.lookup "missing" = none ∧
    (get_task_result emptySys "missing").1.httpStatus = 200 ∧
    (get_task_result emptySys "missing").1.data = some (renderTaskState .PENDING) :=
  ⟨rfl, C3_amended_unknown_id_pending emptySys "missing" rfl⟩

/-- C4: an async submission whose text is empty or absent is answered with
a 400 validation response, and the whole system state — id generator,
queue and result backend — is returned unchanged: no task is created, no
task id is generated, nothing is enqueued. -/
theorem C4_empty_text_rejected (task_type : String) (req : Req) (st : SysState)
    (h : req.getText = "") :
    create_async_task task_type req st = (⟨400, 400, "请输入文本", none⟩, st) := by
  simp [create_async_task, h]

theorem C4_witness :
    (Req.mk none).getText = "" ∧
    create_async_task "zh_to_en" ⟨none⟩ emptySys =
      (⟨400, 400, "请输入文本", none⟩, emptySys) :=
  ⟨rfl, C4_empty_text_rejected "zh_to_en" ⟨none⟩ emptySys rfl⟩

/-- C5: for every backend state rendered by the status query, a completed
rendering carries a non-null result and no error, a failed rendering
carries a non-null error and a null result — never both, never neither —
and a pending or processing rendering carries neither result nor error. -/
theorem C5_terminal_exclusivity (s : CeleryState) :
    ((renderTaskState s).status = "completed" →
      (renderTaskState s).result ≠ none ∧ (renderTaskState s).error = none) ∧
    ((renderTaskState s).status = "failed" →
      (renderTaskState s).error ≠ none ∧ (renderTaskState s).result = none) ∧
    (((renderTaskState s).status = "pending" ∨ (renderTaskState s).status = "processing") →
      (renderTaskState s).result = none ∧ (renderTaskState s).error = none) := by
  cases s <;> refine ⟨?_, ?_, ?_⟩ <;> intro h <;> simp_all [renderTaskState]

theorem C5_witness :
    (renderTaskState (.FAILURE (some "boom"))).status = "failed" ∧
    (renderTaskState (.FAILURE (some "boom"))).error ≠ none ∧
    (renderTaskState (.FAILURE (some "boom"))).result = none :=
  ⟨rfl, (C5_terminal_exclusivity (.FAILURE (some "boom"))).2.1 rfl⟩

/-- C6: for every submission with non-empty text and a known kind, the
gateway answers 200 with data holding the freshly generated task id, the
literal status pending and the result url /api/task/ followed by that id,
while a message with that id, kind and text is appended to the queue and
the result backend is untouched — the response is produced without running
any worker (create_async_task never consults the text service). -/
theorem C6_submission_response (task_type : String) (req : Req) (st : SysState)
    (htext : req.getText ≠ "")
    (hkind : task_type = "zh_to_en" ∨ task_type = "en_to_zh" ∨ task_type = "summarize") :
    create_async_task task_type req st =
      (⟨200, 200, "任务已提交",
        some [("task_id", freshTaskId st.nextId), ("status", "pending"),
              ("result_url", "/api/task/" ++ freshTaskId st.nextId)]⟩,
       ⟨st.nextId + 1, st.queue ++ [⟨freshTaskId st.nextId, task_type, req.getText⟩],
        st.backend⟩) := by
  rcases hkind with h | h | h <;> subst h <;> simp [create_async_task, delay, htext]

theorem C6_witness :
    (Req.mk (some "你好")).getText ≠ "" ∧
    create_async_task "zh_to_en" ⟨some "你好"⟩ emptySys =
      (⟨200, 200, "任务已提交",
        some [("task_id", "task-0"), ("status", "pending"),
              ("result_url", "/api/task/task-0")]⟩,
       ⟨1, [⟨"task-0", "zh_to_en", "你好"⟩], ⟨[]⟩⟩) := by
  refine ⟨by decide, ?_⟩
  have h := C6_submission_response "zh_to_en" ⟨some "你好"⟩ emptySys (by decide) (Or.inl rfl)
  simpa [emptySys, freshTaskId, Req.getText] using h

/-- C7: for every task whose id has no prior backend record, the states a
poller can observe across the worker run follow the one-directional
machine Pending, Processing, then exactly one terminal state: consecutive
observations are allowed steps (so no transition leaves a terminal state
and none skips Processing), every observation from a terminal one on is
that same state, and the trace ends terminal. -/
theorem C7_lifecycle_monotonic (trs : Trs) (b : Backend) (msg : TaskMsg)
    (h : b.entries.lookup msg.id = none) :
    lifecycleOK (taskStatusTrace trs b msg) := by
  obtain ⟨e, he⟩ := taskBody_raises trs msg.kind msg.text
  have htr : taskStatusTrace trs b msg =
      [.PENDING, .PROCESSING, .FAILURE (some e)] := by
    simp [taskStatusTrace, workerBackendTrace, backendGet, backendPut, taskOutcome, he, h]
  rw [htr]
  refine ⟨?_, ?_, ?_⟩
  · exact List.Chain'.cons (Or.inl ⟨rfl, rfl⟩)
      (List.Chain'.cons (Or.inr ⟨rfl, rfl⟩) (List.chain'_singleton _))
  · intro i j hij hj hterm
    simp only [List.length_cons, List.length_nil] at hj
    interval_cases j <;> interval_cases i <;> simp_all [isTerminal]
  · exact ⟨_, rfl, rfl⟩

theorem C7_witness :
    (Backend.mk []).entries.lookup "t1" = none ∧
    lifecycleOK (taskStatusTrace demoTrs ⟨[]⟩ ⟨"t1", "zh_to_en", "你好"⟩) :=
  ⟨rfl, C7_lifecycle_monotonic demoTrs ⟨[]⟩ ⟨"t1", "zh_to_en", "你好"⟩ rfl⟩

/-- C8: for every system state and task id, the status query returns the
state unchanged (it performs no write on the store or on any task record),
and repeating the same query against the resulting state returns the same
response — polling is idempotent and side-effect-free. -/
theorem C8_poll_side_effect_free (st : SysState) (id : String) :
    (get_task_result st id).2 = st ∧
    (get_task_result (get_task_result st id).2 id).1 = (get_task_result st id).1 :=
  ⟨rfl, rfl⟩

/-- C9: for every oracle and every request with non-empty text, the
synchronous zh_to_en handler and the synchronous en_to_zh handler return
identical responses — both call trs.translate_en_to_zh — so in particular
their translated outputs agree on equal inputs. -/
theorem C9_sync_handlers_identical (trs : Trs) (req : Req)
    (h : req.getText ≠ "") :
    trans_zh_to_en trs req = trans_en_to_zh trs req := by
  unfold trans_zh_to_en trans_en_to_zh
  simp [h]

theorem C9_witness :
    (Req.mk (some "hello")).getText ≠ "" ∧
    trans_zh_to_en demoTrs ⟨some "hello"⟩ = trans_en_to_zh demoTrs ⟨some "hello"⟩ :=
  ⟨by decide, C9_sync_handlers_identical demoTrs ⟨some "hello"⟩ (by decide)⟩

/-- C10: for every task_type outside the three known kinds, the gateway
answers 400 and returns the system state unchanged, so no message with an
unknown kind is ever enqueued. -/
theorem C10_unknown_kind_rejected (task_type : String) (req : Req) (st : SysState)
    (h1 : task_type ≠ "zh_to_en") (h2 : task_type ≠ "en_to_zh")
    (h3 : task_type ≠ "summarize") :
    (create_async_task task_type req st).1.httpStatus = 400 ∧
    (create_async_task task_type req st).1.code = 400 ∧
    (create_async_task task_type req st).2 = st := by
  by_cases hx : req.getText = "" <;> simp [create_async_task, hx, h1, h2, h3]

theorem C10_witness :
    (("translate" : String) ≠ "zh_to_en" ∧ ("translate" : String) ≠ "en_to_zh" ∧
      ("translate" : String) ≠ "summarize") ∧
    (create_async_task "translate" ⟨some "你好"⟩ emptySys).1.httpStatus = 400 ∧
    (create_async_task "translate" ⟨some "你好"⟩ emptySys).1.code = 400 ∧
    (create_async_task "translate" ⟨some "你好"⟩ emptySys).2 = emptySys :=
  ⟨⟨by decide, by decide, by decide⟩,
   C10_unknown_kind_rejected "translate" ⟨some "你好"⟩ emptySys
     (by decide) (by decide) (by decide)⟩
